import Mathlib

/-!
Verification of the swarm bootstrap orchestrator of `pulumi-swarm-deployment`.

The definitions below are a shallow embedding of the orchestration logic in
`src/swarm_deployment_gcp/swarm.py` (class `SwarmCluster`, its startup-script
rendering, its manager-readiness retry loop, and its worker fan-out), together
with the zone-indexing logic of the older module revisions
`src/swarm.py` and `src/__main__.py`.
-/

namespace Swarm

/-- Node role: the first instance is the swarm manager, all others are workers. -/
inductive Role where
  | Manager : Role
  | Worker : Role
deriving DecidableEq, Repr

/-- Models the `add_docker_users` line of `SwarmCluster.__init__`:
the shell loop granting docker group membership to every ssh user name
(the keys of `ssh_pub_keys`), joined with single spaces. -/
def addDockerUsers (userNames : List String) : String :=
  "for user in " ++ String.intercalate " " userNames ++ "; do sudo usermod -a -G docker \"$user\"; done"

/-- Models the `startup_script` triple-quoted template of
`swarm_deployment_gcp/swarm.py`: install step, sysctl step, then the
role-specific swarm setup block, then the docker-users loop. -/
def startupScriptTemplate (swarmSetup addUsers : String) : String :=
  "\n" ++ "apt-get update && apt-get -y install docker.io" ++
  "\nsudo sysctl -w vm.max_map_count=262144\n" ++ swarmSetup ++ "\n" ++ addUsers ++ "\n"

/-- Models `secret_location`: replication flags added to the create command
only when `docker_token_secret_user_managed` is true. -/
def secretLocation (userManaged : Bool) (region : String) : String :=
  if userManaged then "--replication-policy=user-managed --locations=" ++ region else ""

/-- Models the manager `swarm_setup` f-string: probe the secret with
`gcloud secrets describe`, fall back to `gcloud secrets create` when the probe
fails, then run swarm init with a bounded address pool and pipe the manager
join token into the selected gcloud command under the secret name. -/
def managerSwarmSetup (secretName : String) (userManaged : Bool) (region : String) : String :=
  "\n" ++ "GCLOUD_COMMAND=\"gcloud secrets versions add\"\n" ++
  "gcloud secrets describe " ++ secretName ++ " > /dev/null 2>&1" ++ "\n" ++
  "if [ $? -ne 0 ]; then\n  GCLOUD_COMMAND=\"gcloud secrets create " ++
  secretLocation userManaged region ++ "\"\nfi" ++ "\n" ++
  "docker swarm init --default-addr-pool-mask-length 16" ++ " && " ++
  "docker swarm join-token manager -q | $GCLOUD_COMMAND " ++ secretName ++ " --data-file=-" ++ "\n"

/-- Models the worker `swarm_setup` f-string: install docker, then join the
swarm at the manager's private address on port 2377 using the latest secret
version as the join token. -/
def workerSwarmSetup (secretName managerIp : String) : String :=
  "\n" ++ "apt update && apt -y install docker.io" ++
  " && sudo sysctl -w vm.max_map_count=262144 &&\n" ++
  "docker swarm join --token $(gcloud secrets versions access latest --secret=" ++
  secretName ++ ") " ++ managerIp ++ ":2377" ++ "\n"

/-- Bootstrap script rendering, as performed inline in `SwarmCluster.__init__`:
the startup-script template instantiated with the role-specific swarm setup
block and the docker-users loop. For the manager role the manager private
address is not used; the region is used in the replication flags of the
secret creation fallback. -/
def render (role : Role) (secretName : String) (userManaged : Bool) (region : String)
    (managerIp : String) (userNames : List String) : String :=
  startupScriptTemplate
    (match role with
      | Role.Manager => managerSwarmSetup secretName userManaged region
      | Role.Worker => workerSwarmSetup secretName managerIp)
    (addDockerUsers userNames)

/-- `ContainsStr s pat` holds when `pat` occurs as a contiguous substring of `s`. -/
def ContainsStr (s pat : String) : Prop :=
  ∃ pre post : String, s = pre ++ pat ++ post

/-- Models the manager readiness retry loop of `SwarmCluster.__init__`:
`retry = 0; while retry < 30 and not check(): sleep(10); retry += 1`.
`ready n` is the outcome of the n-th connection attempt (counting from 0);
`fuel` is the remaining budget `30 - retry`. Returns the number of connection
attempts made, the number of sleeps performed, and whether the loop exited
because a probe succeeded. -/
def awaitReadyFrom (ready : Nat → Bool) : Nat → Nat → Nat × Nat × Bool
  | 0, _ => (0, 0, false)
  | fuel + 1, retry =>
      if ready retry then (1, 0, true)
      else
        let r := awaitReadyFrom ready fuel (retry + 1)
        (r.1 + 1, r.2.1 + 1, r.2.2)

/-- The retry budget hard-coded in `while retry < 30`. -/
def maxAttempts : Nat := 30

/-- The readiness poll as run by `SwarmCluster.__init__`: the retry loop
started with `retry = 0` and budget 30. -/
def awaitReady (ready : Nat → Bool) : Nat × Nat × Bool :=
  awaitReadyFrom ready maxAttempts 0

/-- Observable provisioning events of one `SwarmCluster.__init__` run,
in program order. `templateCreate` records whether the instance template
declared `depends_on` on the initial (manager) instance. -/
inductive Event where
  | managerCreate : String → String → Event
  | probe : Nat → Bool → Event
  | sleep : Event
  | templateCreate : Bool → Event
  | workerCreate : Nat → String → String → Event
deriving DecidableEq, Repr

/-- The fixed zone suffix candidates `zones = ["a", "b", "c"]`. -/
def candidateZones : List String := ["a", "b", "c"]

/-- Worker zone selection of the current module:
`region + "-" + zones[i % len(zones)]`. -/
def workerZone (region : String) (i : Nat) : String :=
  region ++ "-" ++ candidateZones[i % candidateZones.length]!

/-- The probe/sleep events emitted by the readiness retry loop, in order:
a failed probe is followed by a sleep and another iteration; a successful
probe ends the loop at once. -/
def probeTrace (ready : Nat → Bool) : Nat → Nat → List Event
  | 0, _ => []
  | fuel + 1, retry =>
      if ready retry then [Event.probe retry true]
      else Event.probe retry false :: Event.sleep :: probeTrace ready fuel (retry + 1)

/-- The worker creation events of the fan-out loop
`for i in range(1, instance_count)` of the current module: worker `i` is named
with suffix `-swarm-node-i` and placed in `workerZone region i`. -/
def workerEvents (name region : String) (instanceCount : Nat) : List Event :=
  (List.range' 1 (instanceCount - 1)).map
    (fun i => Event.workerCreate i (name ++ "-swarm-node-" ++ toString i) (workerZone region i))

/-- The event trace of one `SwarmCluster.__init__` run of
`swarm_deployment_gcp/swarm.py`, in program order: create the manager in zone
`region + "-a"`, run the bounded readiness loop, create the instance template
(with `depends_on` the manager instance) unconditionally, then run the worker
fan-out loop. -/
def runCluster (name region : String) (instanceCount : Nat) (ready : Nat → Bool) : List Event :=
  Event.managerCreate (name ++ "-swarm-node-0") (region ++ "-a") ::
    (probeTrace ready maxAttempts 0 ++
      Event.templateCreate true :: workerEvents name region instanceCount)

/-- A provisioned node as recorded in `self.swarm_nodes`. -/
structure NodeRes where
  name : String
  zone : String
  role : Role
deriving DecidableEq, Repr

/-- The `self.swarm_nodes` list built by `SwarmCluster.__init__`: the manager
instance first, then one worker per fan-out iteration. -/
def swarmNodes (name region : String) (instanceCount : Nat) : List NodeRes :=
  NodeRes.mk (name ++ "-swarm-node-0") (region ++ "-a") Role.Manager ::
    (List.range' 1 (instanceCount - 1)).map
      (fun i => NodeRes.mk (name ++ "-swarm-node-" ++ toString i) (workerZone region i) Role.Worker)

/-- Recognizes worker creation events. -/
def isWorkerCreate : Event → Bool
  | Event.workerCreate _ _ _ => true
  | _ => false

/-- Recognizes template creation events. -/
def isTemplateCreate : Event → Bool
  | Event.templateCreate _ => true
  | _ => false

/-- Recognizes successful readiness probes. -/
def isProbeSuccess : Event → Bool
  | Event.probe _ r => r
  | _ => false

/-- Worker zone selection of the older module revisions (`src/swarm.py` and
`src/__main__.py`): direct indexing `zones[i]` with no modulo. An index past
the end of the 3-element list is an out-of-range access (Python `IndexError`),
modelled as `none`. -/
def oldWorkerZone (region : String) (i : Nat) : Option String :=
  (candidateZones.get? i).map (fun z => region ++ "-" ++ z)

end Swarm

namespace Swarm

/-- Helper: a permanently failing probe exhausts the whole budget, sleeping
after every failed attempt, and reports failure. -/
theorem awaitReadyFrom_never (ready : Nat → Bool) (h : ∀ n, ready n = false) :
    ∀ fuel retry, awaitReadyFrom ready fuel retry = (fuel, fuel, false) := by
  intro fuel
  induction fuel with
  | zero => intro retry; rfl
  | succ k ih =>
      intro retry
      simp [awaitReadyFrom, h retry, ih (retry + 1)]

/-- Helper: the retry loop never makes more connection attempts than its budget. -/
theorem awaitReadyFrom_attempts_le (ready : Nat → Bool) :
    ∀ fuel retry, (awaitReadyFrom ready fuel retry).1 ≤ fuel := by
  intro fuel
  induction fuel with
  | zero => intro retry; exact Nat.le_refl 0
  | succ k ih =>
      intro retry
      by_cases hr : ready retry = true
      · simp [awaitReadyFrom, hr]
      · simp only [awaitReadyFrom, hr, if_false, Bool.false_eq_true]
        exact Nat.succ_le_succ (ih (retry + 1))

/-- Helper: every event of the readiness loop trace is a sleep or a probe. -/
theorem probeTrace_events (ready : Nat → Bool) :
    ∀ fuel retry, ∀ e ∈ probeTrace ready fuel retry,
      e = Event.sleep ∨ ∃ k b, e = Event.probe k b := by
  intro fuel
  induction fuel with
  | zero => intro retry e he; simp [probeTrace] at he
  | succ k ih =>
      intro retry e he
      by_cases hr : ready retry = true
      · simp [probeTrace, hr] at he
        exact Or.inr ⟨retry, true, he⟩
      · simp only [probeTrace, hr, if_false, Bool.false_eq_true, List.mem_cons] at he
        rcases he with he | he | he
        · exact Or.inr ⟨retry, false, he⟩
        · exact Or.inl he
        · exact ih (retry + 1) e he

/-- Helper: if the retry loop reports success, the trace holds a successful probe. -/
theorem probeTrace_success (ready : Nat → Bool) :
    ∀ fuel retry, (awaitReadyFrom ready fuel retry).2.2 = true →
      ∃ k, Event.probe k true ∈ probeTrace ready fuel retry := by
  intro fuel
  induction fuel with
  | zero => intro retry h; simp [awaitReadyFrom] at h
  | succ k ih =>
      intro retry h
      by_cases hr : ready retry = true
      · exact ⟨retry, by simp [probeTrace, hr]⟩
      · simp only [awaitReadyFrom, hr, if_false, Bool.false_eq_true] at h
        obtain ⟨m, hm⟩ := ih (retry + 1) h
        exact ⟨m, by simp [probeTrace, hr, hm]⟩

/-- Helper: the readiness loop trace creates no workers. -/
theorem probeTrace_filter_worker (ready : Nat → Bool) :
    ∀ fuel retry, (probeTrace ready fuel retry).filter isWorkerCreate = [] := by
  intro fuel
  induction fuel with
  | zero => intro retry; rfl
  | succ k ih =>
      intro retry
      by_cases hr : ready retry = true
      · simp [probeTrace, hr, isWorkerCreate]
      · simp [probeTrace, hr, isWorkerCreate, ih (retry + 1)]

/-- Claim C2: against an address that never accepts connections, the readiness
poll terminates, returning failure after exactly 30 connection attempts with a
sleep after each failed attempt; the number of attempts is always bounded by
the budget of 30, so the loop never runs indefinitely. -/
theorem c2_awaitReady_bounded :
    (∀ ready : Nat → Bool, (awaitReady ready).1 ≤ maxAttempts) ∧
    (∀ ready : Nat → Bool, (∀ n, ready n = false) → awaitReady ready = (30, 30, false)) :=
  ⟨fun ready => awaitReadyFrom_attempts_le ready maxAttempts 0,
   fun ready h => awaitReadyFrom_never ready h maxAttempts 0⟩

/-- Witness for C2: the all-failures probe function makes exactly 30 attempts
and returns failure, and its attempt count is within the budget. -/
theorem c2_awaitReady_bounded_witness :
    awaitReady (fun _ => false) = (30, 30, false) ∧
      (awaitReady (fun _ => false)).1 ≤ maxAttempts :=
  ⟨c2_awaitReady_bounded.2 (fun _ => false) (fun _ => rfl),
   c2_awaitReady_bounded.1 (fun _ => false)⟩

/-- Claim C1 (code behavior at the failing input): with `instance_count = 3`
and a manager that never accepts connections, no readiness probe ever
succeeds, yet the run still issues one template creation and two worker
creations — the code proceeds after exhausting the retry budget instead of
failing, contradicting the claimed `Failed` transition with zero
template/worker calls. -/
theorem c1_run_proceeds_without_readiness :
    ((runCluster "app" "europe-west2" 3 (fun _ => false)).filter isProbeSuccess = []) ∧
    ((runCluster "app" "europe-west2" 3 (fun _ => false)).filter isTemplateCreate).length = 1 ∧
    ((runCluster "app" "europe-west2" 3 (fun _ => false)).filter isWorkerCreate).length = 2 := by
  decide

/-- Claim C9: with `instance_count = 1` the run issues zero worker creations
and the node list is exactly the one-element list holding the manager. -/
theorem c9_single_node (name region : String) (ready : Nat → Bool) :
    (runCluster name region 1 ready).filter isWorkerCreate = [] ∧
    swarmNodes name region 1 =
      [NodeRes.mk (name ++ "-swarm-node-0") (region ++ "-a") Role.Manager] := by
  constructor
  · simp [runCluster, workerEvents, List.range', isWorkerCreate,
      List.filter_append, probeTrace_filter_worker]
  · simp [swarmNodes, List.range']

/-- Claim C10: in the older module revisions the worker zone is `zones[i]`
with no modulo over the fixed 3-element list, so for every node count greater
than 3 the fan-out loop reaches index 3 and the zone lookup is out of range
(no zone value exists, where round-robin would have produced one). -/
theorem c10_old_zone_out_of_range (region : String) (n : Nat) (h : 3 < n) :
    3 ∈ List.range' 1 (n - 1) ∧ oldWorkerZone region 3 = none := by
  constructor
  · rw [List.mem_range'_1]
    omega
  · simp [oldWorkerZone, candidateZones]

/-- Witness for C10: with 4 nodes the fan-out loop reaches index 3 and the
old zone lookup fails there. -/
theorem c10_old_zone_out_of_range_witness :
    3 ∈ List.range' 1 (4 - 1) ∧ oldWorkerZone "europe-west2" 3 = none :=
  c10_old_zone_out_of_range "europe-west2" 4 (by decide)

end Swarm

namespace Swarm

/-- Counterexample to claim C3 as stated: in a run whose manager never
accepts connections, the template is still created although no readiness
confirmation ever occurs — so "readiness confirmation precedes Template
creation" fails as an unconditional invariant of every run. -/
theorem c3_template_without_confirmation :
    Event.templateCreate true ∈ runCluster "app" "europe-west2" 2 (fun _ => false) ∧
    (runCluster "app" "europe-west2" 2 (fun _ => false)).filter isProbeSuccess = [] := by
  decide

/-- Claim C3 (amended): every run's trace is the manager creation, followed by
a block of probe/sleep events only, followed by the template creation (which
declares its dependency on the manager), followed by worker creations only —
so the whole readiness poll precedes the template, and whenever the poll does
succeed, the confirming probe lies before the template creation. Template
creation is, however, not conditioned on a confirmation: it also happens in
runs where the poll exhausts its budget without success. -/
theorem c3_ordering (name region : String) (n : Nat) (ready : Nat → Bool) :
    ∃ probes workers : List Event,
      runCluster name region n ready =
        Event.managerCreate (name ++ "-swarm-node-0") (region ++ "-a") ::
          (probes ++ Event.templateCreate true :: workers) ∧
      (∀ e ∈ probes, e = Event.sleep ∨ ∃ k b, e = Event.probe k b) ∧
      (∀ e ∈ workers, isWorkerCreate e = true) ∧
      ((awaitReady ready).2.2 = false ∨ ∃ k, Event.probe k true ∈ probes) := by
  refine ⟨probeTrace ready maxAttempts 0, workerEvents name region n, rfl,
    probeTrace_events ready maxAttempts 0, ?_, ?_⟩
  · intro e he
    simp only [workerEvents, List.mem_map] at he
    obtain ⟨i, _, rfl⟩ := he
    rfl
  · by_cases hs : (awaitReady ready).2.2 = true
    · exact Or.inr (probeTrace_success ready maxAttempts 0 hs)
    · exact Or.inl (by simpa using hs)

/-- Witness for C3: the decomposition at a concrete run. -/
theorem c3_ordering_witness :
    ∃ probes workers : List Event,
      runCluster "app" "europe-west2" 3 (fun _ => true) =
        Event.managerCreate ("app" ++ "-swarm-node-0") ("europe-west2" ++ "-a") ::
          (probes ++ Event.templateCreate true :: workers) ∧
      (∀ e ∈ probes, e = Event.sleep ∨ ∃ k b, e = Event.probe k b) ∧
      (∀ e ∈ workers, isWorkerCreate e = true) ∧
      ((awaitReady (fun _ => true)).2.2 = false ∨ ∃ k, Event.probe k true ∈ probes) :=
  c3_ordering "app" "europe-west2" 3 (fun _ => true)

/-- Claim C4: for `instance_count = n ≥ 1` the run issues exactly `n - 1`
worker creations; worker `i` (for `1 ≤ i < n`) is placed in zone
`region ++ "-" ++ candidateZones[i % 3]` over the fixed 3-element candidate
list; the node list has length `n` and its head is the manager, created in
zone `region ++ "-a"`. -/
theorem c4_fanout (name region : String) (n : Nat) (ready : Nat → Bool) (h : 1 ≤ n) :
    ((runCluster name region n ready).filter isWorkerCreate).length = n - 1 ∧
    candidateZones.length = 3 ∧
    (∀ i, 1 ≤ i → i < n →
      Event.workerCreate i (name ++ "-swarm-node-" ++ toString i)
        (region ++ "-" ++ candidateZones[i % 3]!) ∈ runCluster name region n ready) ∧
    (swarmNodes name region n).length = n ∧
    (swarmNodes name region n).head? =
      some (NodeRes.mk (name ++ "-swarm-node-0") (region ++ "-a") Role.Manager) := by
  refine ⟨?_, rfl, ?_, ?_, rfl⟩
  · simp [runCluster, isWorkerCreate, List.filter_append, probeTrace_filter_worker,
      workerEvents, List.filter_map, Function.comp_def]
  · intro i h1 h2
    have hmem : i ∈ List.range' 1 (n - 1) := by
      rw [List.mem_range'_1]
      omega
    have : Event.workerCreate i (name ++ "-swarm-node-" ++ toString i)
        (region ++ "-" ++ candidateZones[i % 3]!) ∈ workerEvents name region n := by
      simp only [workerEvents, List.mem_map]
      exact ⟨i, hmem, rfl⟩
    simp [runCluster, List.mem_append, this]
  · simp only [swarmNodes, List.length_cons, List.length_map, List.length_range']
    omega

/-- Witness for C4: the fan-out facts at a concrete five-node run. -/
theorem c4_fanout_witness :
    ((runCluster "app" "europe-west2" 5 (fun _ => true)).filter isWorkerCreate).length = 5 - 1 ∧
    candidateZones.length = 3 ∧
    (∀ i, 1 ≤ i → i < 5 →
      Event.workerCreate i ("app" ++ "-swarm-node-" ++ toString i)
        ("europe-west2" ++ "-" ++ candidateZones[i % 3]!) ∈
          runCluster "app" "europe-west2" 5 (fun _ => true)) ∧
    (swarmNodes "app" "europe-west2" 5).length = 5 ∧
    (swarmNodes "app" "europe-west2" 5).head? =
      some (NodeRes.mk ("app" ++ "-swarm-node-0") ("europe-west2" ++ "-a") Role.Manager) :=
  c4_fanout "app" "europe-west2" 5 (fun _ => true) (by decide)

end Swarm

namespace Swarm

/-- Claim C5 (amended): every manager script contains the runtime install
step, the existence probe of the secret entry, the secret-creation fallback
guarded by that probe (never skipped: when `secretIsUserManaged` is true the
create command only gains user-managed replication and location flags), the
swarm initialization with a bounded node address pool, and the join-token
extraction piped into the secret write under the secret name. -/
theorem c5_manager_script (s : String) (um : Bool) (region ip : String) (users : List String) :
    ContainsStr (render Role.Manager s um region ip users)
      "apt-get update && apt-get -y install docker.io" ∧
    ContainsStr (render Role.Manager s um region ip users)
      ("gcloud secrets describe " ++ s ++ " > /dev/null 2>&1") ∧
    ContainsStr (render Role.Manager s um region ip users)
      ("if [ $? -ne 0 ]; then\n  GCLOUD_COMMAND=\"gcloud secrets create " ++
        secretLocation um region ++ "\"\nfi") ∧
    ContainsStr (render Role.Manager s um region ip users)
      "docker swarm init --default-addr-pool-mask-length 16" ∧
    ContainsStr (render Role.Manager s um region ip users)
      ("docker swarm join-token manager -q | $GCLOUD_COMMAND " ++ s ++ " --data-file=-") ∧
    secretLocation true region = "--replication-policy=user-managed --locations=" ++ region ∧
    secretLocation false region = "" := by
  refine ⟨?_, ?_, ?_, ?_, ?_, rfl, rfl⟩
  · refine ⟨"\n",
      "\nsudo sysctl -w vm.max_map_count=262144\n" ++ managerSwarmSetup s um region ++
        "\n" ++ addDockerUsers users ++ "\n", ?_⟩
    simp only [render, startupScriptTemplate, managerSwarmSetup, String.append_assoc]
  · refine ⟨"\n" ++ "apt-get update && apt-get -y install docker.io" ++
      "\nsudo sysctl -w vm.max_map_count=262144\n" ++ "\n" ++
      "GCLOUD_COMMAND=\"gcloud secrets versions add\"\n",
      "\n" ++ "if [ $? -ne 0 ]; then\n  GCLOUD_COMMAND=\"gcloud secrets create " ++
      secretLocation um region ++ "\"\nfi" ++ "\n" ++
      "docker swarm init --default-addr-pool-mask-length 16" ++ " && " ++
      "docker swarm join-token manager -q | $GCLOUD_COMMAND " ++ s ++ " --data-file=-" ++ "\n" ++
      "\n" ++ addDockerUsers users ++ "\n", ?_⟩
    simp only [render, startupScriptTemplate, managerSwarmSetup, String.append_assoc]
  · refine ⟨"\n" ++ "apt-get update && apt-get -y install docker.io" ++
      "\nsudo sysctl -w vm.max_map_count=262144\n" ++ "\n" ++
      "GCLOUD_COMMAND=\"gcloud secrets versions add\"\n" ++
      "gcloud secrets describe " ++ s ++ " > /dev/null 2>&1" ++ "\n",
      "\n" ++ "docker swarm init --default-addr-pool-mask-length 16" ++ " && " ++
      "docker swarm join-token manager -q | $GCLOUD_COMMAND " ++ s ++ " --data-file=-" ++ "\n" ++
      "\n" ++ addDockerUsers users ++ "\n", ?_⟩
    simp only [render, startupScriptTemplate, managerSwarmSetup, String.append_assoc]
  · refine ⟨"\n" ++ "apt-get update && apt-get -y install docker.io" ++
      "\nsudo sysctl -w vm.max_map_count=262144\n" ++ "\n" ++
      "GCLOUD_COMMAND=\"gcloud secrets versions add\"\n" ++
      "gcloud secrets describe " ++ s ++ " > /dev/null 2>&1" ++ "\n" ++
      "if [ $? -ne 0 ]; then\n  GCLOUD_COMMAND=\"gcloud secrets create " ++
      secretLocation um region ++ "\"\nfi" ++ "\n",
      " && " ++
      "docker swarm join-token manager -q | $GCLOUD_COMMAND " ++ s ++ " --data-file=-" ++ "\n" ++
      "\n" ++ addDockerUsers users ++ "\n", ?_⟩
    simp only [render, startupScriptTemplate, managerSwarmSetup, String.append_assoc]
  · refine ⟨"\n" ++ "apt-get update && apt-get -y install docker.io" ++
      "\nsudo sysctl -w vm.max_map_count=262144\n" ++ "\n" ++
      "GCLOUD_COMMAND=\"gcloud secrets versions add\"\n" ++
      "gcloud secrets describe " ++ s ++ " > /dev/null 2>&1" ++ "\n" ++
      "if [ $? -ne 0 ]; then\n  GCLOUD_COMMAND=\"gcloud secrets create " ++
      secretLocation um region ++ "\"\nfi" ++ "\n" ++
      "docker swarm init --default-addr-pool-mask-length 16" ++ " && ",
      "\n" ++ "\n" ++ addDockerUsers users ++ "\n", ?_⟩
    simp only [render, startupScriptTemplate, managerSwarmSetup, String.append_assoc]

set_option maxRecDepth 10000 in
/-- Counterexample to claim C5 as stated: with `secretIsUserManaged = true`
the rendered manager script still contains the `gcloud secrets create`
fallback — the secret-creation step is not skipped by the flag. -/
theorem c5_creation_not_skipped :
    ContainsStr (render Role.Manager "tok" true "europe-west2" "" []) "gcloud secrets create" :=
  ⟨"\napt-get update && apt-get -y install docker.io\nsudo sysctl -w vm.max_map_count=262144\n\nGCLOUD_COMMAND=\"gcloud secrets versions add\"\ngcloud secrets describe tok > /dev/null 2>&1\nif [ $? -ne 0 ]; then\n  GCLOUD_COMMAND=\"",
   " --replication-policy=user-managed --locations=europe-west2\"\nfi\ndocker swarm init --default-addr-pool-mask-length 16 && docker swarm join-token manager -q | $GCLOUD_COMMAND tok --data-file=-\n\nfor user in ; do sudo usermod -a -G docker \"$user\"; done\n",
   by decide⟩

set_option maxRecDepth 10000 in
/-- Counterexample to claim C7 as stated: two renderings that agree on the
claimed tuple (role, secretName, secretIsUserManaged, managerPrivateAddress,
userNames) but differ in the region produce different script text, because
the manager script embeds the region in its replication location flags. -/
theorem c7_region_breaks_tuple_determinism :
    render Role.Manager "tok" true "europe-west2" "10.0.0.2" ["alice"] ≠
      render Role.Manager "tok" true "us-east1" "10.0.0.2" ["alice"] := by
  decide

/-- Claim C7 (amended): script rendering is a pure function of the full
input tuple including the region; for any fixed inputs, rendering twice
yields byte-identical text. -/
theorem c7_render_deterministic (role : Role) (s : String) (um : Bool)
    (region ip : String) (users : List String) :
    render role s um region ip users = render role s um region ip users := rfl

/-- Claim C6: every worker script rendered with a non-empty manager private
address contains the runtime install step, the join command that reads the
token from the latest version of the named secret, and the swarm join
directed at exactly the manager address on port 2377, plus the
group-membership loop over the local user names. -/
theorem c6_worker_script (s : String) (um : Bool) (region ip : String)
    (users : List String) (h : ip ≠ "") :
    ContainsStr (render Role.Worker s um region ip users)
      "apt update && apt -y install docker.io" ∧
    ContainsStr (render Role.Worker s um region ip users)
      ("docker swarm join --token $(gcloud secrets versions access latest --secret=" ++
        s ++ ") " ++ ip ++ ":2377") ∧
    ContainsStr (render Role.Worker s um region ip users) (addDockerUsers users) := by
  refine ⟨?_, ?_, ?_⟩
  · refine ⟨"\n" ++ "apt-get update && apt-get -y install docker.io" ++
      "\nsudo sysctl -w vm.max_map_count=262144\n" ++ "\n",
      " && sudo sysctl -w vm.max_map_count=262144 &&\n" ++
      "docker swarm join --token $(gcloud secrets versions access latest --secret=" ++
      s ++ ") " ++ ip ++ ":2377" ++ "\n" ++
      "\n" ++ addDockerUsers users ++ "\n", ?_⟩
    simp only [render, startupScriptTemplate, workerSwarmSetup, String.append_assoc]
  · refine ⟨"\n" ++ "apt-get update && apt-get -y install docker.io" ++
      "\nsudo sysctl -w vm.max_map_count=262144\n" ++ "\n" ++
      "apt update && apt -y install docker.io" ++
      " && sudo sysctl -w vm.max_map_count=262144 &&\n",
      "\n" ++ "\n" ++ addDockerUsers users ++ "\n", ?_⟩
    simp only [render, startupScriptTemplate, workerSwarmSetup, String.append_assoc]
  · refine ⟨"\n" ++ "apt-get update && apt-get -y install docker.io" ++
      "\nsudo sysctl -w vm.max_map_count=262144\n" ++ workerSwarmSetup s ip ++ "\n",
      "\n", ?_⟩
    simp only [render, startupScriptTemplate, workerSwarmSetup, String.append_assoc]

/-- Witness for C6: the worker script facts at concrete inputs. -/
theorem c6_worker_script_witness :
    ContainsStr (render Role.Worker "tok" false "europe-west2" "10.0.0.2" ["alice"])
      "apt update && apt -y install docker.io" ∧
    ContainsStr (render Role.Worker "tok" false "europe-west2" "10.0.0.2" ["alice"])
      ("docker swarm join --token $(gcloud secrets versions access latest --secret=" ++
        "tok" ++ ") " ++ "10.0.0.2" ++ ":2377") ∧
    ContainsStr (render Role.Worker "tok" false "europe-west2" "10.0.0.2" ["alice"])
      (addDockerUsers ["alice"]) :=
  c6_worker_script "tok" false "europe-west2" "10.0.0.2" ["alice"] (by decide)

/-- Claim C8: for every role and every input the rendered script contains
the group-membership loop, and with an empty user-name list that loop is the
no-op statement over an empty word list — the step is never omitted. -/
theorem c8_add_users_always_present (role : Role) (s : String) (um : Bool)
    (region ip : String) (users : List String) :
    ContainsStr (render role s um region ip users) (addDockerUsers users) ∧
    addDockerUsers [] = "for user in ; do sudo usermod -a -G docker \"$user\"; done" := by
  refine ⟨?_, by decide⟩
  cases role with
  | Manager =>
      refine ⟨"\n" ++ "apt-get update && apt-get -y install docker.io" ++
        "\nsudo sysctl -w vm.max_map_count=262144\n" ++ managerSwarmSetup s um region ++ "\n",
        "\n", ?_⟩
      simp only [render, startupScriptTemplate, managerSwarmSetup, String.append_assoc]
  | Worker =>
      refine ⟨"\n" ++ "apt-get update && apt-get -y install docker.io" ++
        "\nsudo sysctl -w vm.max_map_count=262144\n" ++ workerSwarmSetup s ip ++ "\n",
        "\n", ?_⟩
      simp only [render, startupScriptTemplate, workerSwarmSetup, String.append_assoc]

end Swarm
